import Mathlib

/-
Verification of the policy-validation core of arouteserver against its
natural-language specification.

The definitions below are a shallow embedding of
  src/pierky/arouteserver/config/general.py  (ConfigParserGeneral.parse,
    check_overlapping_communities and its nested helpers)
  src/pierky/arouteserver/cached_objects.py  (CachedObject)
Each definition's doc comment points at the source lines it embeds.
-/

namespace ARouteServer

/-- One positional part of a BGP community value, as produced by
`comm_val.split(":")` inside `communities_overlap`
(general.py lines 483-484).  After schema validation every part is either a
canonical literal integer or one of the two placeholder words `peer_as` /
`dyn_val`, which we model as an inductive type. -/
inductive CommPart where
  | lit (n : Nat)
  | peerAs
  | dynVal
  deriving DecidableEq, Repr

/-- Outcome of the positional comparison loop of `communities_overlap`
(general.py lines 485-529):
`ok` means the loop finished or hit `break` without raising;
`overlap` means `ConfigError` was raised (the two values overlap);
`valueError` means an uncaught `ValueError` escaped from `int(...)` applied
to a non-numeric part (general.py lines 503-506);
`indexError` means an uncaught `IndexError` from `comm2_parts[part_idx]`
when the second value has fewer parts than the first. -/
inductive CmpResult where
  | ok
  | overlap
  | valueError
  | indexError
  deriving DecidableEq, Repr

/-- Private / reserved ASN ranges tested by `communities_overlap`
(general.py lines 518-521): the 2-byte range [64512, 65534] and the 4-byte
range [4200000000, 4294967294]. -/
def isPrivateAsn (n : Nat) : Bool :=
  (decide (64512 ≤ n) && decide (n ≤ 65534)) ||
  (decide (4200000000 ≤ n) && decide (n ≤ 4294967294))

/-- Carve-out test applied when exactly one side of a position is the
`peer_as` placeholder and `n` is the literal integer on the other side
(general.py lines 512-521): the position is cleared when `n` equals the
route-server ASN, when `n` is zero, or, with `allow` (the
`allow_private_asns` argument) enabled, when `n` lies in a private ASN
range.  The test order mirrors the source. -/
def peerAsCleared (rsAs : Nat) (allow : Bool) (n : Nat) : Bool :=
  (n == rsAs) || (n == 0) || (allow && isPrivateAsn n)

/-- The positional comparison loop of `communities_overlap`
(general.py lines 485-529) for one shared encoding format.  The first list
plays the role of `comm1_parts` (whose indices drive the loop), the second
of `comm2_parts`.  Per position, in source order:
if either part is `dyn_val` a `ConfigError` is raised (lines 497-499);
if both parts are `peer_as`, `int("peer_as")` raises an uncaught
`ValueError` (lines 503-504); if exactly one part is `peer_as` the carve-out
test runs, `continue`-ing to the next position on success and raising
`ConfigError` on failure (lines 512-522); otherwise two literals are
compared and an inequality `break`s out of the loop (lines 528-529). -/
def cmpParts (rsAs : Nat) (allow : Bool) : List CommPart → List CommPart → CmpResult
  | [], _ => CmpResult.ok
  | _ :: _, [] => CmpResult.indexError
  | CommPart.dynVal :: _, _ :: _ => CmpResult.overlap
  | _ :: _, CommPart.dynVal :: _ => CmpResult.overlap
  | CommPart.peerAs :: _, CommPart.peerAs :: _ => CmpResult.valueError
  | CommPart.peerAs :: t1, CommPart.lit n :: t2 =>
      if peerAsCleared rsAs allow n then cmpParts rsAs allow t1 t2 else CmpResult.overlap
  | CommPart.lit n :: t1, CommPart.peerAs :: t2 =>
      if peerAsCleared rsAs allow n then cmpParts rsAs allow t1 t2 else CmpResult.overlap
  | CommPart.lit n1 :: t1, CommPart.lit n2 :: t2 =>
      if n1 = n2 then cmpParts rsAs allow t1 t2 else CmpResult.ok

/-- A community as seen by the overlap checks: its three optional encoding
formats `std` / `lrg` / `ext` (general.py line 476), each either unset
(`None` or empty, which the source skips at lines 477-480) or a parsed part
sequence. -/
structure Comm where
  std : Option (List CommPart)
  lrg : Option (List CommPart)
  ext : Option (List CommPart)
  deriving DecidableEq, Repr

/-- One iteration of the `for fmt in ("std", "lrg", "ext")` loop of
`communities_overlap`: when either side's value for the format is unset the
format is skipped (`continue`, general.py lines 477-480, modelled as `ok`),
otherwise the part sequences are compared. -/
def fmtOverlap (rsAs : Nat) (allow : Bool) :
    Option (List CommPart) → Option (List CommPart) → CmpResult
  | some p1, some p2 => cmpParts rsAs allow p1 p2
  | _, _ => CmpResult.ok

/-- The whole of `communities_overlap` (general.py lines 470-529) on a pair
of communities: formats are visited in the source order `std`, `lrg`,
`ext`; the first raised exception (any non-`ok` result) exits the function,
and if every format passes the function returns normally (`ok`). -/
def communities_overlap (rsAs : Nat) (allow : Bool) (c1 c2 : Comm) : CmpResult :=
  match fmtOverlap rsAs allow c1.std c2.std with
  | CmpResult.ok =>
    match fmtOverlap rsAs allow c1.lrg c2.lrg with
    | CmpResult.ok => fmtOverlap rsAs allow c1.ext c2.ext
    | r => r
  | r => r

/-- Outcome of `compare_communities` (general.py lines 531-544):
`clean` models `return True`; `conflict t1 t2` models the `except
ConfigError` branch that logs the overlapping pair `(t1, t2)` and returns
`False`; `crash r` models an exception other than `ConfigError`
(`ValueError` / `IndexError`) escaping uncaught. -/
inductive CompareOutcome where
  | clean
  | conflict (t1 t2 : Nat)
  | crash (r : CmpResult)
  deriving DecidableEq, Repr

/-- Inner loop of `compare_communities` (`for tag2 in sorted(comms2)`,
general.py lines 533-543) for a fixed `(t1, c1)`: pairs with the same tag
are skipped, the first `ConfigError` stops the whole comparison with that
pair, and any other exception propagates. -/
def compareInner (rsAs : Nat) (allow : Bool) (t1 : Nat) (c1 : Comm) :
    List (Nat × Comm) → CompareOutcome
  | [] => CompareOutcome.clean
  | (t2, c2) :: rest =>
    if t1 = t2 then compareInner rsAs allow t1 c1 rest
    else
      match communities_overlap rsAs allow c1 c2 with
      | CmpResult.ok => compareInner rsAs allow t1 c1 rest
      | CmpResult.overlap => CompareOutcome.conflict t1 t2
      | r => CompareOutcome.crash r

/-- `compare_communities` (general.py lines 531-544).  The two groups are
given as association lists in the sorted-tag iteration order the source
obtains from `sorted(comms1)` / `sorted(comms2)`.  The function returns at
the first conflicting pair it finds, after logging that single pair. -/
def compare_communities (rsAs : Nat) (allow : Bool) :
    List (Nat × Comm) → List (Nat × Comm) → CompareOutcome
  | [], _ => CompareOutcome.clean
  | (t1, c1) :: rest, l2 =>
    match compareInner rsAs allow t1 c1 l2 with
    | CompareOutcome.clean => compare_communities rsAs allow rest l2
    | r => r

/-- One `errors = errors or not compare_communities(...)` statement of
`check_overlapping_communities` (general.py lines 565-589).  The state is
`none` after an uncaught crash, otherwise `some (errors, log)` where `log`
is the list of overlapping pairs logged so far.  Python's `or` short-circuit
means the comparison is not even run once `errors` is already `True`. -/
def overlapStep (rsAs : Nat) (allow : Bool) (g1 g2 : List (Nat × Comm)) :
    Option (Bool × List (Nat × Nat)) → Option (Bool × List (Nat × Nat))
  | none => none
  | some (errs, log) =>
    if errs then some (errs, log)
    else
      match compare_communities rsAs allow g1 g2 with
      | CompareOutcome.clean => some (false, log)
      | CompareOutcome.conflict t1 t2 => some (true, log ++ [(t1, t2)])
      | CompareOutcome.crash _ => none

/-- `check_overlapping_communities` (general.py lines 385, 546-592): the
four group pairings are checked in source order — inbound × outbound,
inbound × custom, inbound × inbound, internal × (inbound, outbound and
custom merged) — and the final `errors` flag decides whether `ConfigError`
is raised.  Groups are association lists in sorted-tag order with distinct
tags, so the merged `not_internal_communities` dict is the concatenation.
The result is `none` when an uncaught exception escapes, otherwise
`some (errors, log)`. -/
def check_overlapping_communities (rsAs : Nat) (allow : Bool)
    (inbound outbound internal custom : List (Nat × Comm)) :
    Option (Bool × List (Nat × Nat)) :=
  overlapStep rsAs allow internal (inbound ++ outbound ++ custom)
    (overlapStep rsAs allow inbound inbound
      (overlapStep rsAs allow inbound custom
        (overlapStep rsAs allow inbound outbound (some (false, [])))))

/-- Truthiness test used by `ConfigParserGeneral.parse` on a community's
three format values (general.py lines 330-333, 343-346). -/
def commIsSet (c : Comm) : Bool :=
  c.std.isSome || c.ext.isSome || c.lrg.isSome

/-- The two reject-policy checks of `ConfigParserGeneral.parse`
(general.py lines 325-351), returning how many errors they log: when the
reject policy is not `tag`, one error per reason-tagging community
(`reject_cause`, `rejected_route_announced_by`) that has a value in some
format; when the policy is `tag`, one error if `reject_cause` has a value
in no format. -/
def reject_communities_errors (policy : String)
    (reject_cause rejected_route_announced_by : Comm) : Nat :=
  (if policy ≠ "tag" then
    (if commIsSet reject_cause then 1 else 0) +
    (if commIsSet rejected_route_announced_by then 1 else 0)
  else 0) +
  (if policy = "tag" ∧ commIsSet reject_cause = false then 1 else 0)

/-- The `blackhole_filtering` section of the normalized configuration as
read by `ConfigParserGeneral.parse` (general.py lines 279-296): per-family
optional policy string and optional rewrite next-hop address (unset fields
are `None` after validation). -/
structure BlackholeFiltering where
  policy_ipv4 : Option String
  policy_ipv6 : Option String
  rewrite_next_hop_ipv4 : Option String
  rewrite_next_hop_ipv6 : Option String
  deriving DecidableEq, Repr

/-- The `for ip_ver in (4, 6)` blackhole check of `ConfigParserGeneral.parse`
(general.py lines 279-296): the returned list holds the address families for
which an error is logged, in loop order. -/
def blackhole_filtering_errors (bh : BlackholeFiltering) : List Nat :=
  (if bh.policy_ipv4 = some ("rewrite-next-hop") ∧ bh.rewrite_next_hop_ipv4 = none
   then [4] else []) ++
  (if bh.policy_ipv6 = some ("rewrite-next-hop") ∧ bh.rewrite_next_hop_ipv6 = none
   then [6] else [])

/-- Abstract state of a cache record file as observed by
`CachedObject.load_data_from_cache` (cached_objects.py lines 38-61):
`missing` — `os.path.isfile` is false (line 41); `unreadable` — `open` or
`json.load` raises (lines 44-48); `noTs` — parsed JSON without a `ts` key
(line 50); `noData ts` — parsed JSON without a `data` key (line 52);
`record ts dta` — a well-formed record.  Cached payloads are modelled as
lists of naturals, with the empty list standing for a falsy value. -/
inductive CacheContent where
  | missing
  | unreadable
  | noTs
  | noData (ts : Int)
  | record (ts : Int) (dta : List Nat)
  deriving DecidableEq, Repr

/-- `CachedObject.load_data_from_cache` (cached_objects.py lines 38-61):
returns the cached payload when the file holds a well-formed record whose
timestamp passes `data["ts"] <= epoch_time - self.cache_expiry_time:
return False` (line 57), and `none` (modelling `return False`) in every
other case. -/
def load_data_from_cache (file : CacheContent) (now ttl : Int) : Option (List Nat) :=
  match file with
  | CacheContent.missing => none
  | CacheContent.unreadable => none
  | CacheContent.noTs => none
  | CacheContent.noData _ => none
  | CacheContent.record ts dta => if ts ≤ now - ttl then none else some dta

/-- Result of `CachedObject.save_data_to_cache`: `ok file` — the method
returned, leaving the record file in state `file`; `error` — it raised
`CachedObjectsError`. -/
inductive CacheWriteResult where
  | ok (file : CacheContent)
  | error
  deriving DecidableEq, Repr

/-- `CachedObject.save_data_to_cache` (cached_objects.py lines 74-91):
nothing at all happens when `self.raw_data` is falsy (`if self.raw_data:`
at line 84 guards the whole write); otherwise the record `{ts: now,
data: raw_data}` is written, and a failing write (`writeOk = false`)
raises `CachedObjectsError`. -/
def save_data_to_cache (file : CacheContent) (now : Int) (raw_data : List Nat)
    (writeOk : Bool) : CacheWriteResult :=
  if raw_data = [] then CacheWriteResult.ok file
  else if writeOk then CacheWriteResult.ok (CacheContent.record now raw_data)
  else CacheWriteResult.error

/-- Result of `CachedObject.load_data`: on `ok`, the value that ends up in
`self.raw_data` together with the resulting record-file state; `error`
models a `CachedObjectsError` escaping from the save step. -/
inductive LoadResult where
  | ok (raw_data : List Nat) (file : CacheContent)
  | error
  deriving DecidableEq, Repr

/-- `CachedObject.load_data` (cached_objects.py lines 66-72): use the cache
when `load_data_from_cache` succeeds, otherwise recompute via `_get_data`
(whose result is the `compute` argument) and call `save_data_to_cache`. -/
def load_data (file : CacheContent) (now ttl : Int) (compute : List Nat)
    (writeOk : Bool) : LoadResult :=
  match load_data_from_cache file now ttl with
  | some d => LoadResult.ok d file
  | none =>
    match save_data_to_cache file now compute writeOk with
    | CacheWriteResult.ok f2 => LoadResult.ok compute f2
    | CacheWriteResult.error => LoadResult.error

end ARouteServer

namespace ARouteServer

/-- The carve-out condition of `communities_overlap` (general.py lines
512-521), written as a proposition: the literal `n` facing a `peer_as`
placeholder is cleared when it equals the route-server ASN, equals zero,
or, when `allow` is enabled, falls in a private ASN range. -/
def peerAsCarveOut (rsAs : Nat) (allow : Bool) (n : Nat) : Prop :=
  n = rsAs ∨ n = 0 ∨
    (allow = true ∧ ((64512 ≤ n ∧ n ≤ 65534) ∨ (4200000000 ≤ n ∧ n ≤ 4294967294)))

instance (rsAs : Nat) (allow : Bool) (n : Nat) : Decidable (peerAsCarveOut rsAs allow n) := by
  unfold peerAsCarveOut
  infer_instance

/-- Length agreement between two optional format values: trivial unless
both are set, in which case the part sequences have the same length (which
holds for any two validated values of the same encoding format). -/
def optSameLen : Option (List CommPart) → Option (List CommPart) → Bool
  | some l1, some l2 => l1.length == l2.length
  | _, _ => true

lemma peerAsCleared_iff (rsAs : Nat) (allow : Bool) (n : Nat) :
    peerAsCleared rsAs allow n = true ↔ peerAsCarveOut rsAs allow n := by
  simp [peerAsCleared, isPrivateAsn, peerAsCarveOut, Bool.or_eq_true, Bool.and_eq_true,
    decide_eq_true_eq, or_assoc]

/-- Walking the comparison loop over a common all-literal front of both part
sequences just recurses into the tails: at each such position the two parts
are equal literals, so the loop moves to the next index. -/
lemma cmpParts_append_lits (rsAs : Nat) (allow : Bool) (common l1 l2 : List CommPart)
    (h : ∀ p ∈ common, ∃ n, p = CommPart.lit n) :
    cmpParts rsAs allow (common ++ l1) (common ++ l2) = cmpParts rsAs allow l1 l2 := by
  induction common with
  | nil => rfl
  | cons p cs ih =>
    obtain ⟨n, rfl⟩ := h p (List.mem_cons_self p cs)
    have hcs : ∀ q ∈ cs, ∃ m, q = CommPart.lit m :=
      fun q hq => h q (List.mem_cons_of_mem _ hq)
    simpa [cmpParts] using ih hcs

/-- The positional comparison is symmetric on part sequences of equal
length: every branch of the loop treats the two sides alike. -/
lemma cmpParts_symm (rsAs : Nat) (allow : Bool) :
    ∀ l1 l2 : List CommPart, l1.length = l2.length →
      cmpParts rsAs allow l1 l2 = cmpParts rsAs allow l2 l1 := by
  intro l1
  induction l1 with
  | nil =>
    intro l2 h
    cases l2 with
    | nil => rfl
    | cons p2 t2 => simp at h
  | cons p1 t1 ih =>
    intro l2 h
    cases l2 with
    | nil => simp at h
    | cons p2 t2 =>
      have ht : t1.length = t2.length := by simpa using h
      have iht := ih t2 ht
      cases p1 with
      | lit n1 =>
        cases p2 with
        | lit n2 =>
          rcases eq_or_ne n1 n2 with hn | hn
          · subst hn
            simp [cmpParts, iht]
          · simp [cmpParts, hn, hn.symm]
        | peerAs => simp [cmpParts, iht]
        | dynVal => simp [cmpParts]
      | peerAs =>
        cases p2 with
        | lit n2 => simp [cmpParts, iht]
        | peerAs => simp [cmpParts]
        | dynVal => simp [cmpParts]
      | dynVal =>
        cases p2 with
        | lit n2 => simp [cmpParts]
        | peerAs => simp [cmpParts]
        | dynVal => simp [cmpParts]

/-- Disabling the private-ASN carve-out can only change a comparison's
outcome into an overlap: with `allow = false` the loop either follows the
very same trajectory as with `allow = true` or raises `ConfigError` at the
first position the carve-out would have cleared. -/
lemma cmpParts_no_carveout (rsAs : Nat) :
    ∀ l1 l2 : List CommPart,
      cmpParts rsAs false l1 l2 = cmpParts rsAs true l1 l2 ∨
      cmpParts rsAs false l1 l2 = CmpResult.overlap := by
  intro l1
  induction l1 with
  | nil => intro l2; left; rfl
  | cons p1 t1 ih =>
    intro l2
    cases l2 with
    | nil => left; cases p1 <;> rfl
    | cons p2 t2 =>
      have key : ∀ n : Nat,
          (if peerAsCleared rsAs false n then cmpParts rsAs false t1 t2
            else CmpResult.overlap) =
            (if peerAsCleared rsAs true n then cmpParts rsAs true t1 t2
              else CmpResult.overlap) ∨
          (if peerAsCleared rsAs false n then cmpParts rsAs false t1 t2
            else CmpResult.overlap) = CmpResult.overlap := by
        intro n
        by_cases hf : peerAsCleared rsAs false n
        · have htr : peerAsCleared rsAs true n := by
            revert hf
            simp [peerAsCleared]
            tauto
          rcases ih t2 with h1 | h1
          · left; simp [hf, htr, h1]
          · right; simp [hf, h1]
        · right; simp [hf]
      cases p1 with
      | lit n1 =>
        cases p2 with
        | lit n2 =>
          rcases eq_or_ne n1 n2 with hn | hn
          · subst hn
            rcases ih t2 with h1 | h1
            · left; simp [cmpParts, h1]
            · right; simp [cmpParts, h1]
          · left; simp [cmpParts, hn]
        | peerAs => simpa [cmpParts] using key n1
        | dynVal => left; simp [cmpParts]
      | peerAs =>
        cases p2 with
        | lit n2 => simpa [cmpParts] using key n2
        | peerAs => left; simp [cmpParts]
        | dynVal => left; simp [cmpParts]
      | dynVal =>
        cases p2 with
        | lit n2 => left; simp [cmpParts]
        | peerAs => left; simp [cmpParts]
        | dynVal => left; simp [cmpParts]

lemma fmtOverlap_no_carveout (rsAs : Nat) (v1 v2 : Option (List CommPart)) :
    fmtOverlap rsAs false v1 v2 = fmtOverlap rsAs true v1 v2 ∨
    fmtOverlap rsAs false v1 v2 = CmpResult.overlap := by
  cases v1 with
  | none => left; rfl
  | some p1 =>
    cases v2 with
    | none => left; rfl
    | some p2 => simpa [fmtOverlap] using cmpParts_no_carveout rsAs p1 p2

lemma communities_overlap_no_carveout (rsAs : Nat) (c1 c2 : Comm) :
    communities_overlap rsAs false c1 c2 = communities_overlap rsAs true c1 c2 ∨
    communities_overlap rsAs false c1 c2 = CmpResult.overlap := by
  unfold communities_overlap
  rcases fmtOverlap_no_carveout rsAs c1.std c2.std with hstd | hstd
  · rw [hstd]
    cases fmtOverlap rsAs true c1.std c2.std with
    | ok =>
      rcases fmtOverlap_no_carveout rsAs c1.lrg c2.lrg with hlrg | hlrg
      · rw [hlrg]
        cases fmtOverlap rsAs true c1.lrg c2.lrg with
        | ok => exact fmtOverlap_no_carveout rsAs c1.ext c2.ext
        | overlap => left; rfl
        | valueError => left; rfl
        | indexError => left; rfl
      · rw [hlrg]; right; rfl
    | overlap => left; rfl
    | valueError => left; rfl
    | indexError => left; rfl
  · rw [hstd]; right; rfl

lemma fmtOverlap_symm (rsAs : Nat) (allow : Bool) (v1 v2 : Option (List CommPart))
    (h : optSameLen v1 v2 = true) :
    fmtOverlap rsAs allow v1 v2 = fmtOverlap rsAs allow v2 v1 := by
  cases v1 with
  | none => cases v2 <;> rfl
  | some p1 =>
    cases v2 with
    | none => rfl
    | some p2 =>
      have hlen : p1.length = p2.length := by
        simpa [optSameLen] using h
      simpa [fmtOverlap] using cmpParts_symm rsAs allow p1 p2 hlen

end ARouteServer

namespace ARouteServer

/-- Every `errors = errors or not compare_communities(...)` step keeps the
log of reported overlapping pairs at no more than one entry: a step only
appends when `errors` is still `False` (logs were empty), and afterwards
`errors` is `True`, which short-circuits all later steps. -/
lemma overlapStep_inv (rsAs : Nat) (allow : Bool) (g1 g2 : List (Nat × Comm))
    (st : Option (Bool × List (Nat × Nat)))
    (h : ∀ e2 l2, st = some (e2, l2) → l2.length ≤ 1 ∧ (e2 = false → l2 = [])) :
    ∀ e l, overlapStep rsAs allow g1 g2 st = some (e, l) →
      l.length ≤ 1 ∧ (e = false → l = []) := by
  cases st with
  | none => intro e l heq; simp [overlapStep] at heq
  | some p =>
    obtain ⟨e0, l0⟩ := p
    obtain ⟨hlen, hnil⟩ := h e0 l0 rfl
    cases e0 with
    | true =>
      intro e l heq
      simp only [overlapStep, if_pos] at heq
      cases heq
      exact ⟨hlen, by intro hf; cases hf⟩
    | false =>
      have hl0 : l0 = [] := hnil rfl
      subst hl0
      intro e l heq
      simp only [overlapStep, if_neg, Bool.false_eq_true, not_false_iff] at heq
      cases hcmp : compare_communities rsAs allow g1 g2 with
      | clean =>
        rw [hcmp] at heq
        cases heq
        exact ⟨by simp, fun _ => rfl⟩
      | conflict t1 t2 =>
        rw [hcmp] at heq
        cases heq
        exact ⟨by simp, by intro hf; cases hf⟩
      | crash r =>
        rw [hcmp] at heq
        cases heq

end ARouteServer

namespace ARouteServer

/-- C1 (counterexample).  The claim says a `dyn_val` position forces a
conflict regardless of the other positions, even when an earlier literal
position differs.  In the source the per-position loop `break`s at the
first unequal pair of literals (general.py lines 528-529) before it ever
reaches the later `dyn_val` position, so for the two communities
`65501:10` and `65500:dyn_val` (shared `std` format, route-server ASN 999)
`communities_overlap` returns without raising: no conflict is reported. -/
theorem c1_counterexample :
    communities_overlap 999 true
      (Comm.mk (some [CommPart.lit 65501, CommPart.lit 10]) none none)
      (Comm.mk (some [CommPart.lit 65500, CommPart.dynVal]) none none)
      = CmpResult.ok := by decide

/-- C1 (amended).  If either part sequence carries `dyn_val` at some
position and all earlier positions hold pairwise-equal literals, then the
format comparison reports a conflict, whatever part faces the `dyn_val`
and whatever the later positions hold on either side. -/
theorem c1_dynval_overlap_after_equal_literals (rsAs : Nat) (allow : Bool)
    (common : List CommPart) (p2 : CommPart) (r1 r2 : List CommPart)
    (h : ∀ p ∈ common, ∃ n, p = CommPart.lit n) :
    cmpParts rsAs allow (common ++ CommPart.dynVal :: r1) (common ++ p2 :: r2)
      = CmpResult.overlap ∧
    cmpParts rsAs allow (common ++ p2 :: r2) (common ++ CommPart.dynVal :: r1)
      = CmpResult.overlap := by
  rw [cmpParts_append_lits rsAs allow common _ _ h,
    cmpParts_append_lits rsAs allow common _ _ h]
  exact ⟨by cases p2 <;> rfl, by cases p2 <;> rfl⟩

/-- C1 (witness for the amended theorem at a concrete input). -/
theorem c1_witness :
    cmpParts 999 true [CommPart.dynVal] [CommPart.lit 7] = CmpResult.overlap ∧
    cmpParts 999 true [CommPart.lit 7] [CommPart.dynVal] = CmpResult.overlap :=
  c1_dynval_overlap_after_equal_literals 999 true [] (CommPart.lit 7) [] [] (by simp)

/-- C2 (counterexample).  A configuration with two distinct fatal overlap
defects: inbound tag 1 (`100:peer_as`) overlaps outbound tag 2 (`100:5`),
and inbound tag 3 (`200:dyn_val`) overlaps inbound tag 4 (`200:7`) — the
latter shown by running the inbound × inbound comparison alone.  A single
run of `check_overlapping_communities` logs only the first pair `(1, 2)`:
once the first pairing sets `errors`, `errors = errors or not
compare_communities(...)` short-circuits and the inbound × inbound pairing
is never executed, so the run does not surface the complete defect list. -/
theorem c2_counterexample :
    check_overlapping_communities 999 true
      [(1, Comm.mk (some [CommPart.lit 100, CommPart.peerAs]) none none),
       (3, Comm.mk (some [CommPart.lit 200, CommPart.dynVal]) none none),
       (4, Comm.mk (some [CommPart.lit 200, CommPart.lit 7]) none none)]
      [(2, Comm.mk (some [CommPart.lit 100, CommPart.lit 5]) none none)]
      [] []
      = some (true, [(1, 2)]) ∧
    compare_communities 999 true
      [(1, Comm.mk (some [CommPart.lit 100, CommPart.peerAs]) none none),
       (3, Comm.mk (some [CommPart.lit 200, CommPart.dynVal]) none none),
       (4, Comm.mk (some [CommPart.lit 200, CommPart.lit 7]) none none)]
      [(1, Comm.mk (some [CommPart.lit 100, CommPart.peerAs]) none none),
       (3, Comm.mk (some [CommPart.lit 200, CommPart.dynVal]) none none),
       (4, Comm.mk (some [CommPart.lit 200, CommPart.lit 7]) none none)]
      = CompareOutcome.conflict 3 4 := by decide

/-- C2 (amended).  Overlap checking stops at the first conflict: whatever
the groups are, a completed run of `check_overlapping_communities` logs at
most one overlapping pair, because each pairing returns at its first
conflict and every pairing after a failed one is skipped. -/
theorem c2_overlap_log_at_most_one (rsAs : Nat) (allow : Bool)
    (inbound outbound internal custom : List (Nat × Comm))
    (e : Bool) (log : List (Nat × Nat))
    (h : check_overlapping_communities rsAs allow inbound outbound internal custom
      = some (e, log)) :
    log.length ≤ 1 := by
  unfold check_overlapping_communities at h
  have base : ∀ e2 l2, (some (false, ([] : List (Nat × Nat)))
        : Option (Bool × List (Nat × Nat))) = some (e2, l2) →
      l2.length ≤ 1 ∧ (e2 = false → l2 = []) := by
    intro e2 l2 heq
    cases heq
    exact ⟨by simp, fun _ => rfl⟩
  exact (overlapStep_inv _ _ _ _ _
    (overlapStep_inv _ _ _ _ _
      (overlapStep_inv _ _ _ _ _
        (overlapStep_inv _ _ _ _ _ base))) e log h).1

/-- C2 (witness for the amended theorem at a concrete input). -/
theorem c2_witness : ([((1 : Nat), (2 : Nat))] : List (Nat × Nat)).length ≤ 1 :=
  c2_overlap_log_at_most_one 999 true
    [(1, Comm.mk (some [CommPart.lit 100, CommPart.peerAs]) none none),
     (3, Comm.mk (some [CommPart.lit 200, CommPart.dynVal]) none none),
     (4, Comm.mk (some [CommPart.lit 200, CommPart.lit 7]) none none)]
    [(2, Comm.mk (some [CommPart.lit 100, CommPart.lit 5]) none none)]
    [] [] true [(1, 2)] (by decide)

/-- C3.  When exactly one of the two parts in the trailing position is the
`peer_as` placeholder, the earlier positions holding equal literals, the
pair is cleared for this format (the comparison returns without raising)
precisely when the literal on the other side equals the route-server ASN,
equals zero, or — with the carve-out flag enabled — lies in
[64512, 65534] or [4200000000, 4294967294]; every other literal value
raises the overlap error.  Both argument orders are covered. -/
theorem c3_peer_as_carveout (rsAs : Nat) (allow : Bool) (common : List CommPart)
    (fixed : Nat) (h : ∀ p ∈ common, ∃ n, p = CommPart.lit n) :
    (cmpParts rsAs allow (common ++ [CommPart.peerAs]) (common ++ [CommPart.lit fixed])
        = CmpResult.ok ↔ peerAsCarveOut rsAs allow fixed) ∧
    (cmpParts rsAs allow (common ++ [CommPart.peerAs]) (common ++ [CommPart.lit fixed])
        = CmpResult.overlap ↔ ¬ peerAsCarveOut rsAs allow fixed) ∧
    (cmpParts rsAs allow (common ++ [CommPart.lit fixed]) (common ++ [CommPart.peerAs])
        = CmpResult.ok ↔ peerAsCarveOut rsAs allow fixed) ∧
    (cmpParts rsAs allow (common ++ [CommPart.lit fixed]) (common ++ [CommPart.peerAs])
        = CmpResult.overlap ↔ ¬ peerAsCarveOut rsAs allow fixed) := by
  rw [cmpParts_append_lits rsAs allow common _ _ h,
    cmpParts_append_lits rsAs allow common _ _ h]
  by_cases hc : peerAsCarveOut rsAs allow fixed
  · have hcl : peerAsCleared rsAs allow fixed = true :=
      (peerAsCleared_iff rsAs allow fixed).mpr hc
    simp [cmpParts, hcl, hc]
  · have hcl : peerAsCleared rsAs allow fixed = false := by
      rcases Bool.eq_false_or_eq_true (peerAsCleared rsAs allow fixed) with hb | hb
      · exact absurd ((peerAsCleared_iff rsAs allow fixed).mp hb) hc
      · exact hb
    simp [cmpParts, hcl, hc]

/-- C3 (witness at a concrete input: route-server ASN 65500, carve-out
enabled, literal 65501, no common leading literals). -/
theorem c3_witness :
    (cmpParts 65500 true [CommPart.peerAs] [CommPart.lit 65501]
        = CmpResult.ok ↔ peerAsCarveOut 65500 true 65501) ∧
    (cmpParts 65500 true [CommPart.peerAs] [CommPart.lit 65501]
        = CmpResult.overlap ↔ ¬ peerAsCarveOut 65500 true 65501) ∧
    (cmpParts 65500 true [CommPart.lit 65501] [CommPart.peerAs]
        = CmpResult.ok ↔ peerAsCarveOut 65500 true 65501) ∧
    (cmpParts 65500 true [CommPart.lit 65501] [CommPart.peerAs]
        = CmpResult.overlap ↔ ¬ peerAsCarveOut 65500 true 65501) :=
  c3_peer_as_carveout 65500 true [] 65501 (by simp)

/-- C4 (counterexample).  The claim says equal parts — including two
identical placeholders — make the comparison continue to the next position
without error.  In the source two `dyn_val` parts raise the overlap
`ConfigError` (general.py lines 497-499), and two `peer_as` parts hit
`int("peer_as")` (line 504), an uncaught `ValueError`: evaluated on the
pair of communities both holding `65500:peer_as`, `communities_overlap`
ends in the uncaught exception instead of continuing. -/
theorem c4_counterexample :
    cmpParts 999 true [CommPart.dynVal] [CommPart.dynVal] = CmpResult.overlap ∧
    cmpParts 999 true [CommPart.peerAs] [CommPart.peerAs] = CmpResult.valueError ∧
    communities_overlap 65500 true
      (Comm.mk (some [CommPart.lit 65500, CommPart.peerAs]) none none)
      (Comm.mk (some [CommPart.lit 65500, CommPart.peerAs]) none none)
      = CmpResult.valueError := by decide

/-- C4 (amended).  When both compared parts at a position are literals they
are compared for exact equality: unequal literals end the comparison for
this format with no overlap reported, and equal literals continue to the
next position without error.  Two identical placeholders do not continue:
two `dyn_val` parts raise the overlap error, and two `peer_as` parts raise
an uncaught conversion error. -/
theorem c4_literal_equality_step (rsAs : Nat) (allow : Bool) (n1 n2 : Nat)
    (t1 t2 : List CommPart) :
    (n1 ≠ n2 → cmpParts rsAs allow (CommPart.lit n1 :: t1) (CommPart.lit n2 :: t2)
        = CmpResult.ok) ∧
    (n1 = n2 → cmpParts rsAs allow (CommPart.lit n1 :: t1) (CommPart.lit n2 :: t2)
        = cmpParts rsAs allow t1 t2) ∧
    cmpParts rsAs allow (CommPart.dynVal :: t1) (CommPart.dynVal :: t2)
      = CmpResult.overlap ∧
    cmpParts rsAs allow (CommPart.peerAs :: t1) (CommPart.peerAs :: t2)
      = CmpResult.valueError :=
  ⟨fun hn => by simp [cmpParts, hn],
   fun hn => by simp [cmpParts, hn],
   rfl, rfl⟩

/-- C4 (witness for the amended theorem at a concrete input). -/
theorem c4_witness :
    cmpParts 0 true [CommPart.lit 1] [CommPart.lit 2] = CmpResult.ok :=
  (c4_literal_equality_step 0 true 1 2 [] []).1 (by decide)

/-- C5 (counterexample).  The set of pairs actually reported by the
reporting pass is not monotone in the carve-out flag, because the pass
stops at the first conflicting pair of its iteration order: with inbound
tag 1 `1:peer_as` against tags 3 `1:64512` and 4 `1:5` (route-server ASN
999), the carve-out-enabled run reports exactly the pair (1, 4), but the
carve-out-disabled run reports exactly the pair (1, 3) — its reported set
does not contain (1, 4). -/
theorem c5_counterexample :
    compare_communities 999 true
      [(1, Comm.mk (some [CommPart.lit 1, CommPart.peerAs]) none none)]
      [(3, Comm.mk (some [CommPart.lit 1, CommPart.lit 64512]) none none),
       (4, Comm.mk (some [CommPart.lit 1, CommPart.lit 5]) none none)]
      = CompareOutcome.conflict 1 4 ∧
    compare_communities 999 false
      [(1, Comm.mk (some [CommPart.lit 1, CommPart.peerAs]) none none)]
      [(3, Comm.mk (some [CommPart.lit 1, CommPart.lit 64512]) none none),
       (4, Comm.mk (some [CommPart.lit 1, CommPart.lit 5]) none none)]
      = CompareOutcome.conflict 1 3 ∧
    CompareOutcome.conflict 1 3 ≠ CompareOutcome.conflict 1 4 := by decide

/-- C5 (amended).  At the level of a single pair of communities the
superset property does hold: every pair that overlaps with the private-ASN
carve-out enabled also overlaps with it disabled. -/
theorem c5_no_carveout_pairwise_superset (rsAs : Nat) (c1 c2 : Comm)
    (h : communities_overlap rsAs true c1 c2 = CmpResult.overlap) :
    communities_overlap rsAs false c1 c2 = CmpResult.overlap := by
  rcases communities_overlap_no_carveout rsAs c1 c2 with h2 | h2
  · rw [h2, h]
  · exact h2

/-- C5 (witness for the amended theorem at a concrete input). -/
theorem c5_witness :
    communities_overlap 999 false
      (Comm.mk (some [CommPart.lit 1, CommPart.peerAs]) none none)
      (Comm.mk (some [CommPart.lit 1, CommPart.lit 5]) none none)
      = CmpResult.overlap :=
  c5_no_carveout_pairwise_superset 999
    (Comm.mk (some [CommPart.lit 1, CommPart.peerAs]) none none)
    (Comm.mk (some [CommPart.lit 1, CommPart.lit 5]) none none)
    (by decide)

/-- C6 (counterexample).  The reporting pass is not symmetric in its two
group arguments, because it stops at the first conflicting pair of its
iteration order: with groups A = {1 ↦ 1:dyn_val, 2 ↦ 2:dyn_val} and
B = {3 ↦ 2:5, 4 ↦ 1:5}, running on (A, B) reports exactly the pair (1, 4)
while running on (B, A) reports exactly the pair (3, 2); the pair {1, 4}
is reported in one direction only. -/
theorem c6_counterexample :
    compare_communities 999 true
      [(1, Comm.mk (some [CommPart.lit 1, CommPart.dynVal]) none none),
       (2, Comm.mk (some [CommPart.lit 2, CommPart.dynVal]) none none)]
      [(3, Comm.mk (some [CommPart.lit 2, CommPart.lit 5]) none none),
       (4, Comm.mk (some [CommPart.lit 1, CommPart.lit 5]) none none)]
      = CompareOutcome.conflict 1 4 ∧
    compare_communities 999 true
      [(3, Comm.mk (some [CommPart.lit 2, CommPart.lit 5]) none none),
       (4, Comm.mk (some [CommPart.lit 1, CommPart.lit 5]) none none)]
      [(1, Comm.mk (some [CommPart.lit 1, CommPart.dynVal]) none none),
       (2, Comm.mk (some [CommPart.lit 2, CommPart.dynVal]) none none)]
      = CompareOutcome.conflict 3 2 ∧
    CompareOutcome.conflict 3 2 ≠ CompareOutcome.conflict 1 4 ∧
    CompareOutcome.conflict 3 2 ≠ CompareOutcome.conflict 4 1 := by decide

/-- C6 (amended).  The single-pair check is symmetric: on two communities
whose set formats hold part sequences of equal length (true of any two
validated values of one encoding format), `communities_overlap` gives the
same outcome in either argument order. -/
theorem c6_pairwise_symmetric (rsAs : Nat) (allow : Bool) (c1 c2 : Comm)
    (hstd : optSameLen c1.std c2.std = true)
    (hlrg : optSameLen c1.lrg c2.lrg = true)
    (hext : optSameLen c1.ext c2.ext = true) :
    communities_overlap rsAs allow c1 c2 = communities_overlap rsAs allow c2 c1 := by
  have h1 := fmtOverlap_symm rsAs allow c1.std c2.std hstd
  have h2 := fmtOverlap_symm rsAs allow c1.lrg c2.lrg hlrg
  have h3 := fmtOverlap_symm rsAs allow c1.ext c2.ext hext
  unfold communities_overlap
  rw [h1, h2, h3]

/-- C6 (witness for the amended theorem at a concrete input). -/
theorem c6_witness :
    communities_overlap 999 true
      (Comm.mk (some [CommPart.lit 1, CommPart.peerAs]) none none)
      (Comm.mk (some [CommPart.lit 1, CommPart.lit 5]) none none) =
    communities_overlap 999 true
      (Comm.mk (some [CommPart.lit 1, CommPart.lit 5]) none none)
      (Comm.mk (some [CommPart.lit 1, CommPart.peerAs]) none none) :=
  c6_pairwise_symmetric 999 true
    (Comm.mk (some [CommPart.lit 1, CommPart.peerAs]) none none)
    (Comm.mk (some [CommPart.lit 1, CommPart.lit 5]) none none)
    (by decide) (by decide) (by decide)

end ARouteServer

namespace ARouteServer

/-- C7 (counterexample).  The claim says an invalid record triggers
recomputation "and then written back to the record", but
`save_data_to_cache` writes nothing when the computed value is falsy
(`if self.raw_data:` at cached_objects.py line 84): after a load with a
missing record file and an empty computed value, the record file is still
missing rather than holding the record `{ts: 100, data: []}`. -/
theorem c7_counterexample :
    load_data CacheContent.missing 100 10 [] true
      = LoadResult.ok [] CacheContent.missing ∧
    CacheContent.missing ≠ CacheContent.record 100 [] := by decide

/-- C7 (amended).  A persisted record is treated as valid exactly when its
timestamp satisfies `ts > now - ttl`, and a valid record's payload is used
with the file untouched.  When the record is missing, unreadable, malformed
or stale, the cached value is not used and the value is recomputed via the
compute callback; the recomputed value is written back to the record only
when it is non-empty (a failing write then raises the cache error), while
an empty recomputed value leaves the record file untouched. -/
theorem c7_cache_validity_and_recompute (file : CacheContent) (ts now ttl : Int)
    (d compute : List Nat) (writeOk : Bool) :
    (load_data_from_cache (CacheContent.record ts d) now ttl = some d ↔ now - ttl < ts) ∧
    (now - ttl < ts → load_data (CacheContent.record ts d) now ttl compute writeOk
        = LoadResult.ok d (CacheContent.record ts d)) ∧
    (load_data_from_cache file now ttl = none →
      (compute = [] → load_data file now ttl compute writeOk
          = LoadResult.ok compute file) ∧
      (compute ≠ [] → writeOk = true → load_data file now ttl compute writeOk
          = LoadResult.ok compute (CacheContent.record now compute)) ∧
      (compute ≠ [] → writeOk = false → load_data file now ttl compute writeOk
          = LoadResult.error)) := by
  refine ⟨?_, ?_, ?_⟩
  · by_cases hts : ts ≤ now - ttl <;> simp [load_data_from_cache, hts] <;> omega
  · intro hlt
    have hts : ¬ ts ≤ now - ttl := by omega
    simp [load_data, load_data_from_cache, hts]
  · intro hnone
    refine ⟨?_, ?_, ?_⟩
    · intro hc
      simp [load_data, hnone, save_data_to_cache, hc]
    · intro hc hw
      simp [load_data, hnone, save_data_to_cache, hc, hw]
    · intro hc hw
      simp [load_data, hnone, save_data_to_cache, hc, hw]

/-- C7 (witness for the amended theorem at a concrete input). -/
theorem c7_witness :
    load_data CacheContent.missing 10 3 [7] true
      = LoadResult.ok [7] (CacheContent.record 10 [7]) :=
  ((c7_cache_validity_and_recompute CacheContent.missing 5 10 3 [2] [7] true).2.2
    rfl).2.1 (by decide) rfl

/-- C8.  `save_data_to_cache` raises the cache error exactly when the
computed value is non-empty and the write fails; on an empty (falsy) value
the method returns without writing anything, leaving the existing record
file in whatever state it already had. -/
theorem c8_save_error_iff (file : CacheContent) (now : Int) (raw_data : List Nat)
    (writeOk : Bool) :
    (save_data_to_cache file now raw_data writeOk = CacheWriteResult.error ↔
      (raw_data ≠ [] ∧ writeOk = false)) ∧
    (raw_data = [] → save_data_to_cache file now raw_data writeOk
        = CacheWriteResult.ok file) := by
  constructor
  · by_cases hr : raw_data = [] <;> cases writeOk <;> simp [save_data_to_cache, hr]
  · intro hr
    simp [save_data_to_cache, hr]

/-- C8 (witness at a concrete input). -/
theorem c8_witness :
    save_data_to_cache CacheContent.unreadable 5 [] true
      = CacheWriteResult.ok CacheContent.unreadable :=
  (c8_save_error_iff CacheContent.unreadable 5 [] true).2 rfl

/-- C9.  After normalization the reject-policy pass records a fatal error
precisely when one of the reason-tagging communities (`reject_cause`,
`rejected_route_announced_by`) has a value in some encoding format while
the reject policy is not `tag`, or the policy is `tag` but `reject_cause`
has a value in no encoding format. -/
theorem c9_reject_policy_errors (policy : String) (rc rrab : Comm) :
    0 < reject_communities_errors policy rc rrab ↔
      ((policy ≠ "tag" ∧ (commIsSet rc = true ∨ commIsSet rrab = true)) ∨
       (policy = "tag" ∧ commIsSet rc = false)) := by
  by_cases hp : policy = "tag"
  · cases hrc : commIsSet rc <;>
      simp [reject_communities_errors, hp, hrc]
  · cases hrc : commIsSet rc <;> cases hrr : commIsSet rrab <;>
      simp [reject_communities_errors, hp, hrc, hrr]

/-- C9 (witness at a concrete input: policy `reject`, `reject_cause` set in
the `std` format, `rejected_route_announced_by` unset). -/
theorem c9_witness :
    0 < reject_communities_errors ("reject")
        (Comm.mk (some [CommPart.lit 65500, CommPart.lit 1]) none none)
        (Comm.mk none none none) ↔
      ((("reject" : String) ≠ "tag" ∧
        (commIsSet (Comm.mk (some [CommPart.lit 65500, CommPart.lit 1]) none none) = true ∨
         commIsSet (Comm.mk none none none) = true)) ∨
       (("reject" : String) = "tag" ∧
        commIsSet (Comm.mk (some [CommPart.lit 65500, CommPart.lit 1]) none none) = false)) :=
  c9_reject_policy_errors ("reject")
    (Comm.mk (some [CommPart.lit 65500, CommPart.lit 1]) none none)
    (Comm.mk none none none)

/-- C10.  For each address family independently, the blackhole-filtering
pass records an error naming that family exactly when that family's policy
is `rewrite-next-hop` and that same family's rewrite next-hop address is
unset; the other family's fields do not occur in the condition, so a
configured address for the other family cannot clear the error. -/
theorem c10_blackhole_per_family (bh : BlackholeFiltering) :
    ((4 : Nat) ∈ blackhole_filtering_errors bh ↔
      (bh.policy_ipv4 = some ("rewrite-next-hop") ∧ bh.rewrite_next_hop_ipv4 = none)) ∧
    ((6 : Nat) ∈ blackhole_filtering_errors bh ↔
      (bh.policy_ipv6 = some ("rewrite-next-hop") ∧ bh.rewrite_next_hop_ipv6 = none)) := by
  unfold blackhole_filtering_errors
  by_cases h4 : bh.policy_ipv4 = some ("rewrite-next-hop") ∧ bh.rewrite_next_hop_ipv4 = none <;>
    by_cases h6 : bh.policy_ipv6 = some ("rewrite-next-hop") ∧ bh.rewrite_next_hop_ipv6 = none <;>
      simp [h4, h6]

/-- C10 (witness at a concrete input: IPv4 policy `rewrite-next-hop`
without an IPv4 address, while an IPv6 address is configured). -/
theorem c10_witness :
    ((4 : Nat) ∈ blackhole_filtering_errors
        (BlackholeFiltering.mk (some ("rewrite-next-hop")) none none (some ("2001:db8::1"))) ↔
      ((BlackholeFiltering.mk (some ("rewrite-next-hop")) none none
          (some ("2001:db8::1"))).policy_ipv4 = some ("rewrite-next-hop") ∧
       (BlackholeFiltering.mk (some ("rewrite-next-hop")) none none
          (some ("2001:db8::1"))).rewrite_next_hop_ipv4 = none)) ∧
    ((6 : Nat) ∈ blackhole_filtering_errors
        (BlackholeFiltering.mk (some ("rewrite-next-hop")) none none (some ("2001:db8::1"))) ↔
      ((BlackholeFiltering.mk (some ("rewrite-next-hop")) none none
          (some ("2001:db8::1"))).policy_ipv6 = some ("rewrite-next-hop") ∧
       (BlackholeFiltering.mk (some ("rewrite-next-hop")) none none
          (some ("2001:db8::1"))).rewrite_next_hop_ipv6 = none)) :=
  c10_blackhole_per_family
    (BlackholeFiltering.mk (some ("rewrite-next-hop")) none none (some ("2001:db8::1")))

end ARouteServer
